import Mathlib

/-!
Verification of the atomicni CNI plugin (github.com/annis-souames/atomicni).

This file shallowly embeds the pure logic of the plugin in Lean 4:

* `pkg/config` — stdin configuration parsing, defaulting, and validation
  (`Parse`, `parseIPv4`, `defaultRange`, `networkAndBroadcast`);
* the deterministic veth naming (`HostVethName`, `PeerVethTempName`,
  `deterministicName` over SHA-1);
* `pkg/ipam` — the file-backed allocator's in-memory transition logic
  (`Allocate`, `Release`, `GetByContainer`, `findNextIP`, `validateRequest`);
* `pkg/result` — `BuildAddResult`;
* the ADD orchestrator (`Plugin.Add`) with its rollback stack, instrumented
  with an explicit call trace over an abstract link-operations backend.

Modelling conventions:

* Go `uint32` values are `Nat` with explicit `% 2^32` where Go arithmetic
  can wrap; IPv4 addresses are their `uint32` big-endian numeric value.
  The dotted-quad string form used as Go map keys is identified with this
  numeric value (the two are in bijection for 4-byte addresses).
* Go maps are embedded as functions to `Option` values; insertion and
  deletion are pointwise updates, which is extensionally exactly Go map
  assignment and `delete`.
* Subnet masks are CIDR prefix masks (the only masks `net.ParseCIDR`
  produces); `ip & mask` for a prefix of `ones` bits is
  `ip / 2^(32-ones) * 2^(32-ones)`.
* File locking, directory creation and atomic state replacement
  (`pkg/ipam/store.go`) are I/O; the embedding passes the loaded state in
  explicitly and returns the state that `saveState` persists, which is the
  allocator's entire observable in-memory behaviour between lock
  acquisition and release.
-/

namespace Atomicni

/-- Modulus of Go `uint32` arithmetic. -/
def U32MOD : Nat := 4294967296

/-- Go `uint32` addition (wraps at `2^32`). -/
def u32add (a b : Nat) : Nat := (a + b) % U32MOD

/-- Go `uint32` subtraction (wraps below zero); operands are `< 2^32`. -/
def u32sub (a b : Nat) : Nat := (a + U32MOD - b % U32MOD) % U32MOD

/-- An IPv4 `net.IPNet` with a CIDR prefix mask: `addr` is the (possibly
unmasked) base address, `ones` the prefix length (`net.ParseCIDR` yields
`ones ≤ 32`; the helpers below treat larger values like 32). -/
structure IPNet where
  addr : Nat
  ones : Nat
deriving DecidableEq

/-- Number of addresses covered by a prefix of `ones` bits. -/
def hostSize (ones : Nat) : Nat := 2 ^ (32 - ones)

/-- `ip & mask` for the CIDR prefix mask of `ones` bits. -/
def maskApply (ones ip : Nat) : Nat := ip / hostSize ones * hostSize ones

/-- `(*net.IPNet).Contains` for IPv4: both sides are masked and compared. -/
def subnetContains (s : IPNet) (ip : Nat) : Bool :=
  maskApply s.ones ip == maskApply s.ones s.addr

/-- Network address of a subnet (`subnet.IP.Mask(subnet.Mask)`).
Embeds both `config.networkAndBroadcast` and `ipam.networkAndBroadcast`,
whose byte-wise computations agree with this for prefix masks. -/
def subnetNetwork (s : IPNet) : Nat := maskApply s.ones s.addr

/-- Broadcast address of a subnet (`network[i] | ^mask[i]` byte-wise). -/
def subnetBroadcast (s : IPNet) : Nat := subnetNetwork s + hostSize s.ones - 1

/-! ## Configuration parser (`pkg/config/config.go`)

JSON decoding itself is not embedded: a `RawConfig` is the decoded raw
shape. Each textual IP field is represented by the outcome of the string
classification that `net.ParseIP` / `.To4()` perform on it; the numeric
payload of the `v4` constructors is the parsed address. -/

/-- Classification of a JSON string IP field as `config.parseIPv4` sees it:
empty, rejected by `net.ParseIP`, a non-IPv4 (IPv6) address, or an IPv4
address with value `a`. -/
inductive RawIP where
  | absent
  | invalid
  | v6
  | v4 (a : Nat)
deriving DecidableEq

/-- True for the empty JSON string (Go compares the field with `""`). -/
def RawIP.isAbsent : RawIP → Bool
  | .absent => true
  | _ => false

/-- Classification of the `subnet` CIDR string as `net.ParseCIDR` plus the
`To4` check see it. For `v4 a ones`, `a` is the address part (which
`ParseCIDR` masks; the embedding keeps it unmasked and masks in the
helpers, which is observationally the same). -/
inductive RawCIDR where
  | absent
  | invalid
  | v6
  | v4 (a : Nat) (ones : Nat)
deriving DecidableEq

/-- The decoded stdin JSON, before defaulting and validation
(`config.NetworkConfig`'s JSON-tagged fields; absent strings decode to `""`
and an absent `mtu` decodes to `0`). -/
structure RawConfig where
  cniVersion : String
  name : String
  typ : String
  bridge : String
  subnet : RawCIDR
  gateway : RawIP
  mtu : Int
  dataDir : String
  rangeStart : RawIP
  rangeEnd : RawIP
deriving DecidableEq

/-- The validated configuration (`config.NetworkConfig` after `Parse`):
the derived fields `SubnetNet`, `GatewayIP`, `RangeStartIP`, `RangeEndIP`
together with the defaulted `MTU` and `IPAM.DataDir`. -/
structure NetworkConfig where
  cniVersion : String
  name : String
  typ : String
  bridge : String
  subnet : IPNet
  gateway : Nat
  mtu : Int
  dataDir : String
  rangeStart : Nat
  rangeEnd : Nat
deriving DecidableEq

/-- `config.parseIPv4`: `net.ParseIP` failure yields "invalid IP address",
a non-IPv4 result yields "only IPv4 is supported". -/
def parseIPv4 : RawIP → Except String Nat
  | .v4 a => .ok a
  | .v6 => .error "only IPv4 is supported"
  | _ => .error "invalid IP address"

/-- Parsing of one optional range endpoint as `config.Parse` lines 92-103 do
it: an absent endpoint stays absent, a present one must parse as IPv4 and a
failure is wrapped with the field tag. -/
def rangeIPOpt (tag : String) : RawIP → Except String (Option Nat)
  | .absent => .ok none
  | x =>
    match parseIPv4 x with
    | .error e => .error (tag ++ ": " ++ e)
    | .ok v => .ok (some v)

/-- `config.defaultRange`: `[network+1, broadcast-1]`, rejecting subnets
with fewer than two host addresses. -/
def defaultRange (s : IPNet) : Except String (Nat × Nat) :=
  if 32 - s.ones < 2 then .error "subnet does not provide usable host addresses"
  else
    let start := u32add (subnetNetwork s) 1
    let stop := u32sub (subnetBroadcast s) 1
    if start > stop then .error "subnet does not provide usable host addresses"
    else .ok (start, stop)

/-- Tail of `config.Parse` once the effective range `[rs, re]` is known
(given or defaulted): the range checks of lines 116-127 and the final
validated configuration. -/
def finishRange (r : RawConfig) (s : IPNet) (gatewayIP : Nat) (mtu : Int)
    (dataDir : String) (rs re : Nat) : Except String NetworkConfig :=
  if !(subnetContains s rs) || !(subnetContains s re) then
    .error "ipam range must be inside subnet"
  else if re < rs then .error "ipam rangeStart must be <= rangeEnd"
  else if rs = subnetNetwork s ∨ rs = subnetBroadcast s then
    .error "ipam rangeStart cannot be network or broadcast"
  else if re = subnetNetwork s ∨ re = subnetBroadcast s then
    .error "ipam rangeEnd cannot be network or broadcast"
  else
    .ok ⟨r.cniVersion, r.name, r.typ, r.bridge, s, gatewayIP, mtu, dataDir, rs, re⟩

/-- `config.Parse` (after JSON decoding): required fields, defaults, and
the validation chain in source order. The text wrapped from an underlying
CIDR parse error ("subnet: invalid CIDR: %w") is modelled by the constant
prefix only. -/
def Parse (r : RawConfig) : Except String NetworkConfig :=
  if r.bridge = "" then .error "bridge is required"
  else if r.name = "" then .error "name is required"
  else if r.subnet = RawCIDR.absent then .error "subnet is required"
  else if r.gateway = RawIP.absent then .error "gateway is required"
  else
    let mtu : Int := if r.mtu = 0 then 1500 else r.mtu
    let dataDir := if r.dataDir = "" then "/var/lib/atomicni" else r.dataDir
    match parseIPv4 r.gateway with
    | .error e => .error ("gateway: " ++ e)
    | .ok gatewayIP =>
      match r.subnet with
      | .absent => .error "subnet is required"
      | .invalid => .error "subnet: invalid CIDR"
      | .v6 => .error "subnet: only IPv4 is supported"
      | .v4 a ones =>
        let s : IPNet := ⟨a, ones⟩
        if ¬ subnetContains s gatewayIP then .error "gateway must be inside subnet"
        else if gatewayIP = subnetNetwork s ∨ gatewayIP = subnetBroadcast s then
          .error "gateway cannot be network or broadcast address"
        else
          match rangeIPOpt "ipam.rangeStart" r.rangeStart with
          | .error e => .error e
          | .ok startOpt =>
            match rangeIPOpt "ipam.rangeEnd" r.rangeEnd with
            | .error e => .error e
            | .ok stopOpt =>
              if r.rangeStart.isAbsent != r.rangeEnd.isAbsent then
                .error "ipam.rangeStart and ipam.rangeEnd must be set together"
              else
                match startOpt, stopOpt with
                | some rs, some re => finishRange r s gatewayIP mtu dataDir rs re
                | none, none =>
                  match defaultRange s with
                  | .error e => .error e
                  | .ok (rs, re) => finishRange r s gatewayIP mtu dataDir rs re
                | _, _ =>
                  .error "ipam.rangeStart and ipam.rangeEnd must be set together"

/-! ## Deterministic interface naming (`names.go`)

`deterministicName` hex-encodes the SHA-1 digest of the container ID's
bytes and truncates it so the prefixed name fits Linux's 15-character
interface-name limit. SHA-1 is embedded in full (FIPS 180-1) over byte
lists; `[]byte(key)` for a Go string is its UTF-8 encoding, embedded here
from the Lean string's characters. -/

/-- UTF-8 encoding of one code point (as `[]byte(string)` produces). -/
def utf8EncodeCharNat (c : Nat) : List Nat :=
  if c < 128 then [c]
  else if c < 2048 then [192 + c / 64, 128 + c % 64]
  else if c < 65536 then [224 + c / 4096, 128 + c / 64 % 64, 128 + c % 64]
  else [240 + c / 262144, 128 + c / 4096 % 64, 128 + c / 64 % 64, 128 + c % 64]

/-- The byte sequence `[]byte(s)` of a Go (UTF-8) string. -/
def utf8Bytes (s : String) : List Nat :=
  s.data.flatMap (fun c => utf8EncodeCharNat c.toNat)

/-- Left rotation of a 32-bit word: for `n < 2^32` the shifted-out high
bits and the shifted-up low bits occupy disjoint positions, so the sum is
their bitwise or. -/
def rotl32 (n s : Nat) : Nat := n * 2 ^ s % U32MOD + n / 2 ^ (32 - s)

/-- Bitwise complement on 32 bits. -/
def not32 (b : Nat) : Nat := 4294967295 - b

/-- Big-endian bytes of a 32-bit word. -/
def bytesBE4 (w : Nat) : List Nat :=
  [w / 16777216 % 256, w / 65536 % 256, w / 256 % 256, w % 256]

/-- Big-endian 8-byte encoding of the bit length in SHA-1 padding. -/
def bytesBE8 (w : Nat) : List Nat :=
  [w / 2 ^ 56 % 256, w / 2 ^ 48 % 256, w / 2 ^ 40 % 256, w / 2 ^ 32 % 256,
   w / 16777216 % 256, w / 65536 % 256, w / 256 % 256, w % 256]

/-- SHA-1 message padding: `0x80`, zeros to 56 mod 64, 64-bit bit length. -/
def sha1Pad (msg : List Nat) : List Nat :=
  msg ++ 128 :: List.replicate ((119 - msg.length % 64) % 64) 0
      ++ bytesBE8 (8 * msg.length)

/-- Split a byte list into 64-byte chunks. -/
def chunks64 (l : List Nat) : List (List Nat) :=
  if l = [] then []
  else l.take 64 :: chunks64 (l.drop 64)
termination_by l.length
decreasing_by
  simp only [List.length_drop]
  rcases l with _ | ⟨x, xs⟩
  · simp_all
  · simp; omega

/-- Big-endian 32-bit words of a 64-byte chunk. -/
def chunkWords (chunk : List Nat) : List Nat :=
  (List.range 16).map fun j =>
    chunk.getD (4 * j) 0 * 16777216 + chunk.getD (4 * j + 1) 0 * 65536 +
      chunk.getD (4 * j + 2) 0 * 256 + chunk.getD (4 * j + 3) 0

/-- SHA-1 message-schedule word `w[i]`. -/
def sha1W (ws : List Nat) (i : Nat) : Nat :=
  if i < 16 then ws.getD i 0
  else
    rotl32 (Nat.xor (Nat.xor (sha1W ws (i - 3)) (sha1W ws (i - 8)))
                    (Nat.xor (sha1W ws (i - 14)) (sha1W ws (i - 16)))) 1
termination_by i
decreasing_by all_goals omega

/-- Round function and constant for SHA-1 round `i`. -/
def sha1FK (i b c d : Nat) : Nat × Nat :=
  if i < 20 then (Nat.lor (Nat.land b c) (Nat.land (not32 b) d), 0x5A827999)
  else if i < 40 then (Nat.xor (Nat.xor b c) d, 0x6ED9EBA1)
  else if i < 60 then
    (Nat.lor (Nat.lor (Nat.land b c) (Nat.land b d)) (Nat.land c d), 0x8F1BBCDC)
  else (Nat.xor (Nat.xor b c) d, 0xCA62C1D6)

/-- One SHA-1 round. -/
def sha1Round (ws : List Nat) (st : Nat × Nat × Nat × Nat × Nat) (i : Nat) :
    Nat × Nat × Nat × Nat × Nat :=
  let (a, b, c, d, e) := st
  let (f, k) := sha1FK i b c d
  ((rotl32 a 5 + f + e + k + sha1W ws i) % U32MOD, a, rotl32 b 30, c, d)

/-- SHA-1 compression of one 64-byte chunk into the running digest. -/
def sha1Chunk (h : Nat × Nat × Nat × Nat × Nat) (chunk : List Nat) :
    Nat × Nat × Nat × Nat × Nat :=
  let (h0, h1, h2, h3, h4) := h
  let ws := chunkWords chunk
  let (a, b, c, d, e) := (List.range 80).foldl (sha1Round ws) (h0, h1, h2, h3, h4)
  (u32add h0 a, u32add h1 b, u32add h2 c, u32add h3 d, u32add h4 e)

/-- Serialize the final SHA-1 state to the 20 digest bytes. -/
def sha1Digest (h : Nat × Nat × Nat × Nat × Nat) : List Nat :=
  bytesBE4 h.1 ++ bytesBE4 h.2.1 ++ bytesBE4 h.2.2.1 ++ bytesBE4 h.2.2.2.1 ++
    bytesBE4 h.2.2.2.2

/-- `sha1.Sum`: the 20-byte SHA-1 digest of a byte sequence. -/
def sha1Sum (msg : List Nat) : List Nat :=
  sha1Digest ((chunks64 (sha1Pad msg)).foldl sha1Chunk
    (0x67452301, 0xEFCDAB89, 0x98BADCFE, 0x10325476, 0xC3D2E1F0))

/-- Lower-case hex digit for a value below 16. -/
def hexDigit (n : Nat) : Char := Char.ofNat (if n < 10 then 48 + n else 87 + n)

/-- `hex.EncodeToString` as a character list. -/
def hexEncode (bytes : List Nat) : List Char :=
  bytes.flatMap fun b => [hexDigit (b / 16), hexDigit (b % 16)]

/-- The `av`/`cv` name prefixes and the 15-character Linux limit come from
`names.go`; the digest is truncated to `15 - len(prefix)` hex characters
(clamped below by 1). Go's string slicing is byte slicing, which on the
ASCII hex text coincides with the character-list `take` used here. -/
def deterministicName (pre : String) (key : String) : String :=
  let hexHash := hexEncode (sha1Sum (utf8Bytes key))
  let maxHashLen := if 15 - pre.length < 1 then 1 else 15 - pre.length
  String.mk (pre.data ++ hexHash.take maxHashLen)

/-- `HostVethName`: deterministic host-side veth name. -/
def HostVethName (containerID : String) : String :=
  deterministicName "av" containerID

/-- `PeerVethTempName`: deterministic temporary peer name. -/
def PeerVethTempName (containerID : String) : String :=
  deterministicName "cv" containerID

/-! ## IPAM allocator (`pkg/ipam/allocator.go`)

The persisted `state` has `containerToIP`, `ipToContainer` and
`lastReserved`. The two maps are embedded as functions to `Option` values;
map keys that are dotted-quad strings are identified with their `uint32`
value (canonical for every address this code writes). `lastReserved` is
`Option Nat`: `none` covers both the empty string and a string
`net.ParseIP` cannot parse, which `findNextIP` treats identically (cursor
stays at the range start). The error path for a stored `containerToIP`
value that fails to re-parse (allocator.go lines 52-55) is outside this
value domain and not modelled. -/

/-- Pointwise map insertion (`m[k] = v` on a Go map). -/
def mupdate {α β : Type} [DecidableEq α] (m : α → Option β) (k : α) (v : β) :
    α → Option β :=
  fun x => if x = k then some v else m x

/-- Pointwise map deletion (`delete(m, k)` on a Go map). -/
def merase {α β : Type} [DecidableEq α] (m : α → Option β) (k : α) :
    α → Option β :=
  fun x => if x = k then none else m x

/-- The per-network persisted `ipam.state`. -/
structure AllocState where
  containerToIP : String → Option Nat
  ipToContainer : Nat → Option String
  lastReserved : Option Nat

/-- The empty state `newState()` (also what `loadState` yields for an
absent or empty state file). -/
def newState : AllocState := ⟨fun _ => none, fun _ => none, none⟩

/-- `ipam.AllocationRequest`. The `Subnet`, `Gateway`, `RangeStart` and
`RangeEnd` fields are embedded at IPv4 values, so the nil-pointer and
non-IPv4 rejections of `validateRequest` (allocator.go lines 183-194) are
vacuous here and omitted. -/
structure AllocationRequest where
  dataDir : String
  network : String
  containerID : String
  subnet : IPNet
  gateway : Nat
  rangeStart : Nat
  rangeEnd : Nat

/-- `ipam.validateRequest` on the embedded value domain: the non-empty
string checks, the range-inside-subnet check and the range-order check, in
source order. `none` means the request is valid. -/
def validateRequest (req : AllocationRequest) : Option String :=
  if req.dataDir = "" then some "dataDir is required"
  else if req.network = "" then some "network is required"
  else if req.containerID = "" then some "containerID is required"
  else if !(subnetContains req.subnet req.rangeStart) ||
          !(subnetContains req.subnet req.rangeEnd) then
    some "allocation range must be inside subnet"
  else if req.rangeEnd < req.rangeStart then some "rangeStart must be <= rangeEnd"
  else none

/-- The `i`-th candidate of the scan: `candidate := cursor + i` in `uint32`
arithmetic, wrapped once past `end` (`candidate = start + (candidate-end-1)`). -/
def candidateAt (start stop cursor i : Nat) : Nat :=
  let c0 := u32add cursor i
  if stop < c0 then u32add start (u32sub (u32sub c0 stop) 1) else c0

/-- The scan loop of `findNextIP`: `i` is the Go loop counter, `fuel` the
remaining iterations (`count - i`). -/
def findLoop (ip2c : Nat → Option String)
    (start stop networkIP broadcastIP gateway cursor : Nat) :
    Nat → Nat → Except String Nat
  | _, 0 => .error "no available IP addresses"
  | i, fuel + 1 =>
    if candidateAt start stop cursor i = networkIP ∨
        candidateAt start stop cursor i = broadcastIP ∨
        candidateAt start stop cursor i = gateway then
      findLoop ip2c start stop networkIP broadcastIP gateway cursor (i + 1) fuel
    else if (ip2c (candidateAt start stop cursor i)).isSome then
      findLoop ip2c start stop networkIP broadcastIP gateway cursor (i + 1) fuel
    else .ok (candidateAt start stop cursor i)

/-- `FileAllocator.findNextIP`: next-fit cursor scan in `uint32`
arithmetic, skipping the network, broadcast and gateway addresses and
addresses already present in `ipToContainer`. -/
def findNextIP (st : AllocState) (req : AllocationRequest) : Except String Nat :=
  let start := req.rangeStart
  let stop := req.rangeEnd
  let count := u32add (u32sub stop start) 1
  let cursor0 :=
    match st.lastReserved with
    | some last => if start ≤ last ∧ last ≤ stop then u32add last 1 else start
    | none => start
  let cursor := if stop < cursor0 then start else cursor0
  findLoop st.ipToContainer start stop (subnetNetwork req.subnet)
    (subnetBroadcast req.subnet) req.gateway cursor 0 count

/-- `FileAllocator.Allocate` between state load and save: validation, the
idempotent same-container branch (which refreshes `ipToContainer` and
leaves `lastReserved` alone), and the fresh next-fit allocation recording
both map entries and the new `lastReserved`. -/
def Allocate (st : AllocState) (req : AllocationRequest) :
    Except String (Nat × AllocState) :=
  match validateRequest req with
  | some e => .error e
  | none =>
    match st.containerToIP req.containerID with
    | some ip =>
      .ok (ip, { st with ipToContainer := mupdate st.ipToContainer ip req.containerID })
    | none =>
      match findNextIP st req with
      | .error e => .error e
      | .ok selected =>
        .ok (selected,
          { containerToIP := mupdate st.containerToIP req.containerID selected,
            ipToContainer := mupdate st.ipToContainer selected req.containerID,
            lastReserved := some selected })

/-- `FileAllocator.Release` between state load and save: the empty-string
guard (checked before any lock or file I/O), the idempotent missing-record
success, and deletion of both map entries; `lastReserved` is untouched. -/
def Release (dataDir network containerID : String) (st : AllocState) :
    Except String AllocState :=
  if network = "" ∨ containerID = "" then
    .error "network and containerID are required"
  else
    match st.containerToIP containerID with
    | none => .ok st
    | some ip =>
      .ok { st with containerToIP := merase st.containerToIP containerID,
                    ipToContainer := merase st.ipToContainer ip }

/-- `FileAllocator.GetByContainer` between state load and save. -/
def GetByContainer (dataDir network containerID : String) (st : AllocState) :
    Except String (Option Nat) :=
  if network = "" ∨ containerID = "" then
    .error "network and containerID are required"
  else .ok (st.containerToIP containerID)

/-- State persisted after an `Allocate` call: the saved state on success,
the unchanged prior state on error (no save happens on the error path). -/
def allocStateAfter (st : AllocState) (req : AllocationRequest) : AllocState :=
  match Allocate st req with
  | .ok (_, st') => st'
  | .error _ => st

/-- State persisted after a `Release` call. -/
def releaseStateAfter (dataDir network containerID : String) (st : AllocState) :
    AllocState :=
  match Release dataDir network containerID st with
  | .ok st' => st'
  | .error _ => st

/-- The `AllocationState` invariant of the specification: `containerToIP`
and `ipToContainer` are mutual inverses over their keysets. -/
def Inv (st : AllocState) : Prop :=
  ∀ c ip, st.containerToIP c = some ip ↔ st.ipToContainer ip = some c

/-! ## Result builder (`pkg/result/result.go`)

The CNI result types (`types/100.Result` and friends) live in the external
CNI library; the fields this plugin populates are embedded. -/

/-- `current.Interface`: an absent sandbox is the empty string. -/
structure Interface where
  name : String
  mac : String
  sandbox : String := ""
deriving DecidableEq

/-- `current.IPConfig` as populated here: address, gateway, and the index
of the interface the address belongs to. -/
structure IPConfig where
  address : IPNet
  gateway : Nat
  interface : Option Nat
deriving DecidableEq

/-- `types.Route` as populated here. -/
structure Route where
  dst : IPNet
  gw : Nat
deriving DecidableEq

/-- `current.Result` fields populated by `BuildAddResult`. -/
structure CNIResult where
  cniVersion : String
  interfaces : List Interface
  ips : List IPConfig
  routes : List Route
deriving DecidableEq

/-- `result.BuildAddResult`: host interface, container interface with
sandbox, one IP config on interface index 1, and the default route
`0.0.0.0/0` (`net.IPv4zero` with `CIDRMask(0, 32)`) via the gateway. -/
def BuildAddResult (cniVersion hostName hostMAC containerName containerMAC
    netnsPath : String) (address : IPNet) (gateway : Nat) : CNIResult :=
  { cniVersion := cniVersion
    interfaces := [{ name := hostName, mac := hostMAC },
                   { name := containerName, mac := containerMAC, sandbox := netnsPath }]
    ips := [{ address := address, gateway := gateway, interface := some 1 }]
    routes := [{ dst := ⟨0, 0⟩, gw := gateway }] }

/-! ## ADD orchestrator (`plugin.go`)

`Plugin.Add` drives the link-operations backend (the `netops.NetOps`
interface) and the allocator (the `ipam.Allocator` interface). Both are
external capabilities from `Add`'s point of view, so they are embedded as
records of pure outcome functions, and `Add` additionally returns the
ordered trace of capability calls it makes — including the calls made by
the rollback stack, whose closures are embedded as the tagged actions the
specification's design notes describe. Namespace handles are their paths.
The `nil`-receiver guards at the top of `Add` concern Go pointer wiring
and have no counterpart on total records. -/

/-- One capability call, with the arguments the claims talk about. -/
inductive Event where
  | ensureBridge (bridge : String) (gatewayCIDR : IPNet)
  | createVethPair (host peer : String) (mtu : Int)
  | attachHostVeth (host bridge : String)
  | moveToNamespace (peer ns : String)
  | prepareContainerLink (ns cur target : String)
  | allocate (containerID : String)
  | release (dataDir network containerID : String)
  | addAddressAndRoute (ns ifName : String) (podCIDR : IPNet) (gateway : Nat)
  | deleteLink (name : String)
  | deleteLinkInNS (ns name : String)
  | getLinkMAC (name : String)
deriving DecidableEq

/-- Outcomes of the `netops.NetOps` capability. -/
structure NetOpsModel where
  ensureBridge : String → IPNet → Except String Unit
  createVethPair : String → String → Int → Except String Unit
  attachHostVethToBridge : String → String → Except String Unit
  moveToNamespace : String → String → Except String Unit
  prepareContainerLink : String → String → String → Except String String
  addAddressAndRoute : String → String → IPNet → Nat → Except String Unit
  deleteLink : String → Except String Unit
  deleteLinkInNS : String → String → Except String Unit
  getLinkMAC : String → Except String String

/-- Outcomes of the `ipam.Allocator` capability as `Add` consumes it. -/
structure AllocatorModel where
  allocate : AllocationRequest → Except String Nat
  release : String → String → String → Except String Unit

/-- One rollback closure, as registered by `Add` (design notes §9: tagged
variants standing for the Go closures). -/
inductive RollbackAction where
  | deleteHostVeth (name : String)
  | deletePeerLinks (ns ifName peerTemp : String)
  | releaseIP (dataDir network containerID : String)
deriving DecidableEq

/-- Calls performed by one rollback action; results of the underlying
operations are discarded (`_ =` in the Go closures), so failures are
swallowed and only the trace remains. -/
def runAction : RollbackAction → List Event
  | .deleteHostVeth n => [.deleteLink n]
  | .deletePeerLinks ns ifn peer => [.deleteLinkInNS ns ifn, .deleteLinkInNS ns peer]
  | .releaseIP d n c => [.release d n c]

/-- `rollbackStack.Run`: the registered actions execute in reverse (LIFO)
registration order. -/
def runRollback (stack : List RollbackAction) : List Event :=
  stack.reverse.flatMap runAction

/-- `skel.CmdArgs` as `Add` consumes it, with stdin already JSON-decoded. -/
structure AddArgs where
  containerID : String
  netns : String
  ifName : String
  stdinData : RawConfig

/-- `Plugin.Add`: the ADD sequence with its rollback stack, returning the
capability call trace and either the CNI result or the error wrapped with
the failed step's tag. `getNS` stands for the external `ns.GetNS`. -/
def Add (ops : NetOpsModel) (alloc : AllocatorModel)
    (getNS : String → Except String String) (args : AddArgs) :
    List Event × Except (String × String) CNIResult :=
  match Parse args.stdinData with
  | .error e => ([], .error ("parse-config", e))
  | .ok cfg =>
    match getNS args.netns with
    | .error e => ([], .error ("open-netns", e))
    | .ok targetNS =>
      let gatewayCIDR : IPNet := ⟨cfg.gateway, cfg.subnet.ones⟩
      let t0 := [Event.ensureBridge cfg.bridge gatewayCIDR]
      match ops.ensureBridge cfg.bridge gatewayCIDR with
      | .error e => (t0, .error ("ensure-bridge", e))
      | .ok _ =>
        let host := HostVethName args.containerID
        let peer := PeerVethTempName args.containerID
        let t1 := t0 ++ [Event.createVethPair host peer cfg.mtu]
        match ops.createVethPair host peer cfg.mtu with
        | .error e => (t1 ++ runRollback [], .error ("create-veth", e))
        | .ok _ =>
          let rb1 := [RollbackAction.deleteHostVeth host]
          let t2 := t1 ++ [Event.attachHostVeth host cfg.bridge]
          match ops.attachHostVethToBridge host cfg.bridge with
          | .error e => (t2 ++ runRollback rb1, .error ("attach-host-veth", e))
          | .ok _ =>
            let t3 := t2 ++ [Event.moveToNamespace peer targetNS]
            match ops.moveToNamespace peer targetNS with
            | .error e => (t3 ++ runRollback rb1, .error ("move-peer-to-netns", e))
            | .ok _ =>
              let rb2 := rb1 ++ [RollbackAction.deletePeerLinks targetNS args.ifName peer]
              let t4 := t3 ++ [Event.prepareContainerLink targetNS peer args.ifName]
              match ops.prepareContainerLink targetNS peer args.ifName with
              | .error e => (t4 ++ runRollback rb2, .error ("prepare-container-link", e))
              | .ok containerMAC =>
                let ipReq : AllocationRequest :=
                  { dataDir := cfg.dataDir, network := cfg.name,
                    containerID := args.containerID, subnet := cfg.subnet,
                    gateway := cfg.gateway, rangeStart := cfg.rangeStart,
                    rangeEnd := cfg.rangeEnd }
                let t5 := t4 ++ [Event.allocate args.containerID]
                match alloc.allocate ipReq with
                | .error e => (t5 ++ runRollback rb2, .error ("alloc-ip", e))
                | .ok allocatedIP =>
                  let rb3 := rb2 ++
                    [RollbackAction.releaseIP cfg.dataDir cfg.name args.containerID]
                  let podCIDR : IPNet := ⟨allocatedIP, cfg.subnet.ones⟩
                  let t6 := t5 ++
                    [Event.addAddressAndRoute targetNS args.ifName podCIDR cfg.gateway]
                  match ops.addAddressAndRoute targetNS args.ifName podCIDR cfg.gateway with
                  | .error e => (t6 ++ runRollback rb3, .error ("configure-container-ip", e))
                  | .ok _ =>
                    let t7 := t6 ++ [Event.getLinkMAC host]
                    match ops.getLinkMAC host with
                    | .error e => (t7 ++ runRollback rb3, .error ("read-host-mac", e))
                    | .ok hostMAC =>
                      (t7, .ok (BuildAddResult cfg.cniVersion host hostMAC args.ifName
                        containerMAC args.netns podCIDR cfg.gateway))

/-! ## Validation rule lists

Two rule-list views of `Parse`'s validation, for the ordering claim: the
order the code implements, and the order §3 of the specification lists.
Each rule is a pair of a violation condition and the reported message. -/

/-- Error component of an `Except` outcome. -/
def exceptErr {α : Type} : Except String α → Option String
  | .error e => some e
  | .ok _ => none

/-- Success component of an `Except` outcome. -/
def exceptOk {α : Type} : Except String α → Option α
  | .error _ => none
  | .ok v => some v

/-- The subnet field, when it is an IPv4 CIDR. -/
def rawSubnetV4 (r : RawConfig) : Option IPNet :=
  match r.subnet with
  | .v4 a ones => some ⟨a, ones⟩
  | _ => none

/-- Condition of the gateway-inside-subnet rule (evaluated by the code only
once the subnet is IPv4 and the gateway parsed). -/
def gwOutside (r : RawConfig) : Bool :=
  match rawSubnetV4 r, r.gateway with
  | some s, .v4 g => !(subnetContains s g)
  | _, _ => false

/-- Condition of the gateway-not-network-or-broadcast rule. -/
def gwNetBcast (r : RawConfig) : Bool :=
  match rawSubnetV4 r, r.gateway with
  | some s, .v4 g => decide (g = subnetNetwork s ∨ g = subnetBroadcast s)
  | _, _ => false

/-- Condition under which the materialization of the default range fails. -/
def defaultRangeFails (r : RawConfig) : Bool :=
  match rawSubnetV4 r with
  | some s =>
    r.rangeStart.isAbsent && r.rangeEnd.isAbsent && (exceptErr (defaultRange s)).isSome
  | none => false

/-- The effective allocation range the later range rules are checked on:
the given endpoints, or the materialized default when both are absent. -/
def effRange (r : RawConfig) : Option (Nat × Nat) :=
  match rawSubnetV4 r with
  | some s =>
    match r.rangeStart, r.rangeEnd with
    | .v4 a, .v4 b => some (a, b)
    | .absent, .absent => exceptOk (defaultRange s)
    | _, _ => none
  | none => none

/-- Condition of the range-inside-subnet rule. -/
def rangeOutside (r : RawConfig) : Bool :=
  match rawSubnetV4 r, effRange r with
  | some s, some (rs, re) => !(subnetContains s rs) || !(subnetContains s re)
  | _, _ => false

/-- Condition of the range-order rule. -/
def rangeOrderBad (r : RawConfig) : Bool :=
  match effRange r with
  | some (rs, re) => decide (re < rs)
  | none => false

/-- Condition of the rangeStart-not-network-or-broadcast rule. -/
def rangeStartNetBcast (r : RawConfig) : Bool :=
  match rawSubnetV4 r, effRange r with
  | some s, some (rs, _) => decide (rs = subnetNetwork s ∨ rs = subnetBroadcast s)
  | _, _ => false

/-- Condition of the rangeEnd-not-network-or-broadcast rule. -/
def rangeEndNetBcast (r : RawConfig) : Bool :=
  match rawSubnetV4 r, effRange r with
  | some s, some (_, re) => decide (re = subnetNetwork s ∨ re = subnetBroadcast s)
  | _, _ => false

/-- The validation rules in the order `config.Parse` implements them:
required fields, gateway IPv4-parsability, subnet IPv4 CIDR, gateway
placement, per-endpoint IPv4-parsability, endpoints set together, default
range materialization, range placement and order. -/
def implRules (r : RawConfig) : List (Bool × String) :=
  [(decide (r.bridge = ""), "bridge is required"),
   (decide (r.name = ""), "name is required"),
   (decide (r.subnet = RawCIDR.absent), "subnet is required"),
   (decide (r.gateway = RawIP.absent), "gateway is required"),
   ((exceptErr (parseIPv4 r.gateway)).isSome,
     "gateway: " ++ (exceptErr (parseIPv4 r.gateway)).getD ""),
   (decide (r.subnet = RawCIDR.invalid), "subnet: invalid CIDR"),
   (decide (r.subnet = RawCIDR.v6), "subnet: only IPv4 is supported"),
   (gwOutside r, "gateway must be inside subnet"),
   (gwNetBcast r, "gateway cannot be network or broadcast address"),
   ((exceptErr (rangeIPOpt "ipam.rangeStart" r.rangeStart)).isSome,
     (exceptErr (rangeIPOpt "ipam.rangeStart" r.rangeStart)).getD ""),
   ((exceptErr (rangeIPOpt "ipam.rangeEnd" r.rangeEnd)).isSome,
     (exceptErr (rangeIPOpt "ipam.rangeEnd" r.rangeEnd)).getD ""),
   (r.rangeStart.isAbsent != r.rangeEnd.isAbsent,
     "ipam.rangeStart and ipam.rangeEnd must be set together"),
   (defaultRangeFails r, "subnet does not provide usable host addresses"),
   (rangeOutside r, "ipam range must be inside subnet"),
   (rangeOrderBad r, "ipam rangeStart must be <= rangeEnd"),
   (rangeStartNetBcast r, "ipam rangeStart cannot be network or broadcast"),
   (rangeEndNetBcast r, "ipam rangeEnd cannot be network or broadcast")]

/-- First failing implemented rule, with its message. -/
def firstRuleError (r : RawConfig) : Option String :=
  ((implRules r).find? (fun p => p.1)).map (fun p => p.2)

/-- Modelled from the spec: the §3 invariant list in its stated order —
subnet is IPv4; gateway lies inside the subnet and is neither the network
nor the broadcast address; if either range endpoint is given, both must
be; range lies inside subnet; rangeStart ≤ rangeEnd; neither endpoint
equals network or broadcast. Messages use the code's vocabulary so the two
views are comparable. A gateway that is not an IPv4 address inside an IPv4
subnet counts as violating the gateway rule. -/
def specRules3 (r : RawConfig) : List (Bool × String) :=
  [((rawSubnetV4 r).isNone, "subnet: only IPv4 is supported"),
   ((match rawSubnetV4 r, r.gateway with
     | some s, .v4 g =>
       !(subnetContains s g) || decide (g = subnetNetwork s ∨ g = subnetBroadcast s)
     | _, _ => true), "gateway must be inside subnet"),
   (r.rangeStart.isAbsent != r.rangeEnd.isAbsent,
     "ipam.rangeStart and ipam.rangeEnd must be set together"),
   (rangeOutside r, "ipam range must be inside subnet"),
   (rangeOrderBad r, "ipam rangeStart must be <= rangeEnd"),
   (rangeStartNetBcast r || rangeEndNetBcast r,
     "ipam rangeStart cannot be network or broadcast")]

/-! ## Supporting lemmas -/

/-- The SHA-1 digest always has 20 bytes. -/
theorem sha1Sum_length (msg : List Nat) : (sha1Sum msg).length = 20 := by
  simp [sha1Sum, sha1Digest, bytesBE4]

/-- Hex encoding doubles the byte count. -/
theorem hexEncode_length (bytes : List Nat) : (hexEncode bytes).length = 2 * bytes.length := by
  induction bytes with
  | nil => simp [hexEncode]
  | cons b l ih => simp [hexEncode] at ih ⊢; omega

/-- Sanity check of the allocator embedding against the §8 test sequence on
`10.22.0.0/29`, gateway `10.22.0.1`, range `[10.22.0.2, 10.22.0.6]`
(addresses written as `uint32` values: `10.22.0.2 = 169213954`). -/
def seqReq (cid : String) : AllocationRequest :=
  { dataDir := "/tmp/atomicni-test", network := "atomic-net", containerID := cid,
    subnet := ⟨169213952, 29⟩, gateway := 169213953,
    rangeStart := 169213954, rangeEnd := 169213958 }

/-- IP component of an `Allocate` outcome. -/
def allocIP (st : AllocState) (req : AllocationRequest) : Option Nat :=
  (exceptOk (Allocate st req)).map Prod.fst

/-- The embedding reproduces the repository's sequential IPAM test:
`allocate(c1) = 10.22.0.2`, `allocate(c2) = 10.22.0.3`, and after
`release(c1)` the next allocation is `10.22.0.4`, not the freed `.2`. -/
theorem allocate_sequence_example :
    allocIP newState (seqReq "c1") = some 169213954 ∧
    allocIP (allocStateAfter newState (seqReq "c1")) (seqReq "c2") = some 169213955 ∧
    allocIP (releaseStateAfter "/tmp/atomicni-test" "atomic-net" "c1"
        (allocStateAfter (allocStateAfter newState (seqReq "c1")) (seqReq "c2")))
      (seqReq "c3") = some 169213956 :=
  ⟨rfl, rfl, rfl⟩

/-! ## Claims -/

/-- Loaded state for the C1 failing input: empty maps with
`lastReserved = "255.255.255.255"`. -/
def c1State : AllocState :=
  { containerToIP := fun _ => none, ipToContainer := fun _ => none,
    lastReserved := some 4294967295 }

/-- Valid allocation request for the C1 failing input: subnet `0.0.0.0/0`,
gateway `0.0.0.5`, range `[0.0.0.2, 255.255.255.255]`. -/
def c1Req : AllocationRequest :=
  { dataDir := "/var/lib/atomicni", network := "atomic-net", containerID := "c-one",
    subnet := ⟨0, 0⟩, gateway := 5, rangeStart := 2, rangeEnd := 4294967295 }

/-- Claim C1: a successful allocate is claimed to return the first
surviving candidate of the next-fit scan, with the cursor wrapping past
`rangeEnd` back to `rangeStart`. On this valid request and loaded state the
claim's scan starts at `rangeStart = 0.0.0.2` (because
`lastReserved = rangeEnd`, so `lastReserved + 1` wraps to `rangeStart`) and
`0.0.0.2` survives every skip rule, yet the code returns `0.0.0.1`
(`uint32` overflow of `lastUint + 1` bypasses the `cursor > end` wrap
guard), an address strictly below `rangeStart` and outside the range. -/
theorem c1_overflow_escapes_range :
    validateRequest c1Req = none ∧
    allocIP c1State c1Req = some 1 ∧
    c1Req.rangeStart = 2 ∧
    c1State.ipToContainer 2 = none ∧
    (2 ≠ subnetNetwork c1Req.subnet ∧ 2 ≠ subnetBroadcast c1Req.subnet ∧
      2 ≠ c1Req.gateway) :=
  ⟨rfl, rfl, rfl, rfl, by decide, by decide, by decide⟩

/-- Claim C3: an allocate for a container that already has a
`containerToIP` entry returns the stored address, only rewrites the
`ipToContainer` entry for that address to the container ID, and leaves
`containerToIP` and `lastReserved` untouched. -/
theorem c3_allocate_idempotent (st : AllocState) (req : AllocationRequest) (ip : Nat)
    (hv : validateRequest req = none)
    (hc : st.containerToIP req.containerID = some ip) :
    Allocate st req =
      .ok (ip, { st with ipToContainer := mupdate st.ipToContainer ip req.containerID }) := by
  unfold Allocate
  rw [hv, hc]

/-- State with one recorded allocation, for the C3 and C5 witnesses. -/
def oneAllocState : AllocState :=
  { containerToIP := fun c => if c = "c1" then some 169213954 else none,
    ipToContainer := fun ip => if ip = 169213954 then some "c1" else none,
    lastReserved := some 169213954 }

/-- Witness for C3 at a concrete request and state. -/
theorem c3_witness :
    Allocate oneAllocState (seqReq "c1") =
      .ok (169213954,
        { oneAllocState with
            ipToContainer := mupdate oneAllocState.ipToContainer 169213954 "c1" }) :=
  c3_allocate_idempotent oneAllocState (seqReq "c1") 169213954 rfl rfl

/-- Counterexample to claim C5 as stated: it quantifies over every network
name and container ID and asserts release succeeds when the container has
no entry, but with an empty network name the code returns the guard error
even though the (empty) state has no entry for the container. -/
theorem c5_counterexample :
    newState.containerToIP "c1" = none ∧
    Release "/var/lib/atomicni" "" "c1" newState =
      .error "network and containerID are required" :=
  ⟨rfl, rfl⟩

/-- Claim C5 (amended to non-empty network and container ID): release
removes the container's entries from both mappings, never modifies
`lastReserved`, and returns success when the container has no entry. -/
theorem c5_release_amended (d n c : String) (st : AllocState)
    (hn : n ≠ "") (hc : c ≠ "") :
    (st.containerToIP c = none → Release d n c st = .ok st) ∧
    ∀ ip, st.containerToIP c = some ip →
      Release d n c st =
        .ok { st with containerToIP := merase st.containerToIP c,
                      ipToContainer := merase st.ipToContainer ip } := by
  have hguard : ¬(n = "" ∨ c = "") := by
    rintro (h | h) <;> [exact hn h; exact hc h]
  constructor
  · intro h
    unfold Release
    rw [if_neg hguard, h]
  · intro ip h
    unfold Release
    rw [if_neg hguard, h]

/-- Witness for C5 (amended) at a concrete state holding one entry. -/
theorem c5_witness :
    Release "/tmp/atomicni-test" "atomic-net" "c1" oneAllocState =
      .ok { oneAllocState with
              containerToIP := merase oneAllocState.containerToIP "c1",
              ipToContainer := merase oneAllocState.ipToContainer 169213954 } :=
  (c5_release_amended "/tmp/atomicni-test" "atomic-net" "c1" oneAllocState
    (by decide) (by decide)).2 169213954 rfl

/-- Claim C10: `Release` and `GetByContainer` fail on an empty network
name or container ID for every state (the guard precedes the lock and all
file I/O, so the error is independent of the state and of the data
directory), while — unlike `Allocate`, which rejects an empty data
directory first — both are insensitive to the data directory argument. -/
theorem c10_guard_validation (d n c : String) (st : AllocState)
    (req : AllocationRequest) :
    (n = "" ∨ c = "" →
      Release d n c st = .error "network and containerID are required" ∧
      GetByContainer d n c st = .error "network and containerID are required") ∧
    (req.dataDir = "" → Allocate st req = .error "dataDir is required") ∧
    Release d n c st = Release "" n c st ∧
    GetByContainer d n c st = GetByContainer "" n c st := by
  refine ⟨fun h => ?_, fun h => ?_, rfl, rfl⟩
  · unfold Release GetByContainer
    rw [if_pos h, if_pos h]
    exact ⟨rfl, rfl⟩
  · unfold Allocate validateRequest
    rw [if_pos h]

/-- Request with an empty data directory, for the C10 witness. -/
def emptyDirReq : AllocationRequest := { seqReq "c1" with dataDir := "" }

/-- Witness for C10 at concrete arguments. -/
theorem c10_witness :
    Release "/x" "" "c1" newState = .error "network and containerID are required" ∧
    GetByContainer "/x" "" "c1" newState =
      .error "network and containerID are required" ∧
    Allocate newState emptyDirReq = .error "dataDir is required" :=
  ⟨((c10_guard_validation "/x" "" "c1" newState emptyDirReq).1 (Or.inl rfl)).1,
   ((c10_guard_validation "/x" "" "c1" newState emptyDirReq).1 (Or.inl rfl)).2,
   (c10_guard_validation "/x" "" "c1" newState emptyDirReq).2.1 rfl⟩

/-- Claim C8: for every container ID the two derived names are pure
(functions of the ID alone), are at most 15 characters long, and differ
from each other. -/
theorem c8_naming_properties (containerID : String) :
    HostVethName containerID = HostVethName containerID ∧
    (HostVethName containerID).length ≤ 15 ∧
    (PeerVethTempName containerID).length ≤ 15 ∧
    HostVethName containerID ≠ PeerVethTempName containerID := by
  refine ⟨rfl, ?_, ?_, ?_⟩
  · simp [HostVethName, deterministicName, String.length, List.length_take,
      hexEncode_length, sha1Sum_length]
  · simp [PeerVethTempName, deterministicName, String.length, List.length_take,
      hexEncode_length, sha1Sum_length]
  · intro h
    have h2 := congrArg String.data h
    simp only [HostVethName, PeerVethTempName, deterministicName] at h2
    simp at h2

/-- Claim C9: `BuildAddResult` always yields exactly two interfaces — host
first, then the container with its sandbox set to the netns path — one IP
entry on interface index 1 with the given address and gateway, and one
default route `0.0.0.0/0` via the gateway. -/
theorem c9_build_add_result_shape (cniVersion hostName hostMAC containerName
    containerMAC netnsPath : String) (address : IPNet) (gateway : Nat) :
    (BuildAddResult cniVersion hostName hostMAC containerName containerMAC
        netnsPath address gateway).interfaces =
      [{ name := hostName, mac := hostMAC },
       { name := containerName, mac := containerMAC, sandbox := netnsPath }] ∧
    (BuildAddResult cniVersion hostName hostMAC containerName containerMAC
        netnsPath address gateway).ips =
      [{ address := address, gateway := gateway, interface := some 1 }] ∧
    (BuildAddResult cniVersion hostName hostMAC containerName containerMAC
        netnsPath address gateway).routes = [{ dst := ⟨0, 0⟩, gw := gateway }] :=
  ⟨rfl, rfl, rfl⟩

/-- The scan loop only returns addresses with no `ipToContainer` entry. -/
theorem findLoop_free (ip2c : Nat → Option String)
    (start stop networkIP broadcastIP gateway cursor : Nat) :
    ∀ fuel i c,
      findLoop ip2c start stop networkIP broadcastIP gateway cursor i fuel = .ok c →
      ip2c c = none := by
  intro fuel
  induction fuel with
  | zero => intro i c h; simp [findLoop] at h
  | succ m ih =>
    intro i c h
    unfold findLoop at h
    split_ifs at h with h1 h2
    · exact ih _ _ h
    · exact ih _ _ h
    · cases h
      exact Option.not_isSome_iff_eq_none.mp h2

/-- `findNextIP` only returns addresses with no `ipToContainer` entry. -/
theorem findNextIP_free (st : AllocState) (req : AllocationRequest) (c : Nat)
    (h : findNextIP st req = .ok c) : st.ipToContainer c = none := by
  unfold findNextIP at h
  exact findLoop_free _ _ _ _ _ _ _ _ _ _ h

/-- Claim C4: starting from any state whose two mappings are mutual
inverses over their keysets, the state persisted by any `Allocate` and any
`Release` call — successful or failed — still has mutually inverse
mappings. -/
theorem c4_inverse_invariant_preserved (st : AllocState) (req : AllocationRequest)
    (d n c : String) (h : Inv st) :
    Inv (allocStateAfter st req) ∧ Inv (releaseStateAfter d n c st) := by
  constructor
  · unfold allocStateAfter Allocate
    cases hv : validateRequest req with
    | some e => exact h
    | none =>
      cases hc : st.containerToIP req.containerID with
      | some ip =>
        intro c' ip'
        simp only [mupdate]
        by_cases hip : ip' = ip
        · rw [if_pos hip, hip, h c' ip, (h req.containerID ip).mp hc]
        · rw [if_neg hip]
          exact h c' ip'
      | none =>
        cases hf : findNextIP st req with
        | error e => exact h
        | ok s =>
          have hfree : st.ipToContainer s = none := findNextIP_free st req s hf
          intro c' ip'
          simp only [mupdate]
          by_cases hc' : c' = req.containerID <;> by_cases hip' : ip' = s
          · rw [if_pos hc', if_pos hip', hc', hip']
            simp
          · rw [if_pos hc', if_neg hip']
            constructor
            · intro hl
              exact absurd (Option.some.inj hl).symm hip'
            · intro hr
              have hx := (h c' ip').mpr hr
              rw [hc', hc] at hx
              cases hx
          · rw [if_neg hc', if_pos hip']
            constructor
            · intro hl
              have hx := (h c' ip').mp hl
              rw [hip', hfree] at hx
              cases hx
            · intro hr
              exact absurd (Option.some.inj hr).symm hc'
          · rw [if_neg hc', if_neg hip']
            exact h c' ip'
  · unfold releaseStateAfter Release
    split_ifs with hg
    · exact h
    · cases hcc : st.containerToIP c with
      | none => exact h
      | some ip =>
        intro c' ip'
        simp only [merase]
        by_cases hc' : c' = c <;> by_cases hip' : ip' = ip
        · rw [if_pos hc', if_pos hip']
          simp
        · rw [if_pos hc', if_neg hip']
          constructor
          · intro hl; cases hl
          · intro hr
            have hx := (h c' ip').mpr hr
            rw [hc', hcc] at hx
            exact absurd (Option.some.inj hx).symm hip'
        · rw [if_neg hc', if_pos hip']
          constructor
          · intro hl
            have hx := (h c' ip').mp hl
            have hy := (h c ip).mp hcc
            rw [hip', hy] at hx
            exact absurd (Option.some.inj hx).symm hc'
          · intro hr; cases hr
        · rw [if_neg hc', if_neg hip']
          exact h c' ip'

/-- Witness for C4: the invariant holds for the empty state and is
preserved across a concrete allocation and a concrete release. -/
theorem c4_witness :
    Inv (allocStateAfter newState (seqReq "c1")) ∧
    Inv (releaseStateAfter "/tmp/atomicni-test" "atomic-net" "c1" newState) := by
  have hinv : Inv newState := by
    intro c ip
    simp [newState]
  exact c4_inverse_invariant_preserved newState (seqReq "c1")
    "/tmp/atomicni-test" "atomic-net" "c1" hinv

/-- Claim C2: whenever `AddAddressAndRoute` fails during `Add` (every
earlier step having succeeded, which is the only way the step is reached),
the call trace shows `Allocate` followed — after the failure — by `Release`
for the same container ID, `DeleteLinkInNS` for the peer in the target
namespace and `DeleteLink` for the host veth, with the three registered
rollback actions executing in reverse (LIFO) registration order: release
first, peer deletions next, host veth deletion last; their own outcomes
are discarded (failures swallowed, the conclusion holds for arbitrary
`deleteLink` / `deleteLinkInNS` / `release` outcomes), and `Add` returns
the error wrapped with the `configure-container-ip` tag. -/
theorem c2_add_rollback_on_configure_failure (ops : NetOpsModel)
    (alloc : AllocatorModel) (getNS : String → Except String String)
    (args : AddArgs) (cfg : NetworkConfig) (ns mac : String) (ip : Nat) (e : String)
    (hparse : Parse args.stdinData = .ok cfg)
    (hns : getNS args.netns = .ok ns)
    (hbridge : ops.ensureBridge cfg.bridge ⟨cfg.gateway, cfg.subnet.ones⟩ = .ok ())
    (hveth : ops.createVethPair (HostVethName args.containerID)
      (PeerVethTempName args.containerID) cfg.mtu = .ok ())
    (hattach : ops.attachHostVethToBridge (HostVethName args.containerID)
      cfg.bridge = .ok ())
    (hmove : ops.moveToNamespace (PeerVethTempName args.containerID) ns = .ok ())
    (hprep : ops.prepareContainerLink ns (PeerVethTempName args.containerID)
      args.ifName = .ok mac)
    (halloc : alloc.allocate
      { dataDir := cfg.dataDir, network := cfg.name,
        containerID := args.containerID, subnet := cfg.subnet,
        gateway := cfg.gateway, rangeStart := cfg.rangeStart,
        rangeEnd := cfg.rangeEnd } = .ok ip)
    (haddr : ops.addAddressAndRoute ns args.ifName ⟨ip, cfg.subnet.ones⟩
      cfg.gateway = .error e) :
    Add ops alloc getNS args =
      ([Event.ensureBridge cfg.bridge ⟨cfg.gateway, cfg.subnet.ones⟩,
        Event.createVethPair (HostVethName args.containerID)
          (PeerVethTempName args.containerID) cfg.mtu,
        Event.attachHostVeth (HostVethName args.containerID) cfg.bridge,
        Event.moveToNamespace (PeerVethTempName args.containerID) ns,
        Event.prepareContainerLink ns (PeerVethTempName args.containerID) args.ifName,
        Event.allocate args.containerID,
        Event.addAddressAndRoute ns args.ifName ⟨ip, cfg.subnet.ones⟩ cfg.gateway,
        Event.release cfg.dataDir cfg.name args.containerID,
        Event.deleteLinkInNS ns args.ifName,
        Event.deleteLinkInNS ns (PeerVethTempName args.containerID),
        Event.deleteLink (HostVethName args.containerID)],
       .error ("configure-container-ip", e)) := by
  simp only [Add, hparse, hns, hbridge, hveth, hattach, hmove, hprep, halloc, haddr,
    runRollback, runAction, List.reverse_cons, List.reverse_nil, List.nil_append,
    List.cons_append, List.append_nil, List.flatMap_cons, List.flatMap_nil]

/-- Mock backend for the C2 witness (the repository's rollback test double:
everything succeeds except `AddAddressAndRoute`). -/
def mockOps : NetOpsModel :=
  { ensureBridge := fun _ _ => .ok ()
    createVethPair := fun _ _ _ => .ok ()
    attachHostVethToBridge := fun _ _ => .ok ()
    moveToNamespace := fun _ _ => .ok ()
    prepareContainerLink := fun _ _ _ => .ok "11:22:33:44:55:66"
    addAddressAndRoute := fun _ _ _ _ => .error "boom"
    deleteLink := fun _ => .ok ()
    deleteLinkInNS := fun _ _ => .ok ()
    getLinkMAC := fun _ => .ok "aa:bb:cc:dd:ee:ff" }

/-- Mock allocator for the C2 witness, always granting `10.22.0.10`. -/
def mockAlloc : AllocatorModel :=
  { allocate := fun _ => .ok 169213962
    release := fun _ _ _ => .ok () }

/-- The configuration of the repository's rollback test:
`10.22.0.0/24`, gateway `10.22.0.1`, range `[10.22.0.10, 10.22.0.20]`. -/
def mockRaw : RawConfig :=
  { cniVersion := "1.1.0", name := "atomic-net", typ := "atomicni",
    bridge := "atomic0", subnet := RawCIDR.v4 169213952 24,
    gateway := RawIP.v4 169213953, mtu := 0, dataDir := "/tmp/atomicni-test",
    rangeStart := RawIP.v4 169213962, rangeEnd := RawIP.v4 169213972 }

/-- The parsed form of `mockRaw`. -/
def mockCfg : NetworkConfig :=
  { cniVersion := "1.1.0", name := "atomic-net", typ := "atomicni",
    bridge := "atomic0", subnet := ⟨169213952, 24⟩, gateway := 169213953,
    mtu := 1500, dataDir := "/tmp/atomicni-test",
    rangeStart := 169213962, rangeEnd := 169213972 }

/-- Arguments of the repository's rollback test. -/
def mockArgs : AddArgs :=
  { containerID := "test-container", netns := "/var/run/netns/test",
    ifName := "eth0", stdinData := mockRaw }

/-- Witness for C2 at the repository's own rollback-test configuration. -/
theorem c2_witness :
    Add mockOps mockAlloc (fun p => .ok p) mockArgs =
      ([Event.ensureBridge "atomic0" ⟨169213953, 24⟩,
        Event.createVethPair (HostVethName "test-container")
          (PeerVethTempName "test-container") 1500,
        Event.attachHostVeth (HostVethName "test-container") "atomic0",
        Event.moveToNamespace (PeerVethTempName "test-container") "/var/run/netns/test",
        Event.prepareContainerLink "/var/run/netns/test"
          (PeerVethTempName "test-container") "eth0",
        Event.allocate "test-container",
        Event.addAddressAndRoute "/var/run/netns/test" "eth0" ⟨169213962, 24⟩ 169213953,
        Event.release "/tmp/atomicni-test" "atomic-net" "test-container",
        Event.deleteLinkInNS "/var/run/netns/test" "eth0",
        Event.deleteLinkInNS "/var/run/netns/test" (PeerVethTempName "test-container"),
        Event.deleteLink (HostVethName "test-container")],
       .error ("configure-container-ip", "boom")) :=
  c2_add_rollback_on_configure_failure mockOps mockAlloc (fun p => .ok p) mockArgs
    mockCfg "/var/run/netns/test" "11:22:33:44:55:66" 169213962 "boom"
    rfl rfl rfl rfl rfl rfl rfl rfl rfl

/-- A successful `finishRange` pins down the resulting configuration. -/
theorem finishRange_ok (r : RawConfig) (s : IPNet) (g : Nat) (m : Int)
    (d : String) (rs re : Nat) (cfg : NetworkConfig)
    (h : finishRange r s g m d rs re = .ok cfg) :
    cfg = ⟨r.cniVersion, r.name, r.typ, r.bridge, s, g, m, d, rs, re⟩ := by
  unfold finishRange at h
  split_ifs at h
  exact (Except.ok.inj h).symm

/-- A gateway inside the subnet that is neither the network nor the
broadcast address forces at least two host addresses (prefix ≤ 30). -/
theorem ones_le_30_of_gateway (a ones g : Nat)
    (hc : subnetContains ⟨a, ones⟩ g = true)
    (hn : ¬ (g = subnetNetwork ⟨a, ones⟩ ∨ g = subnetBroadcast ⟨a, ones⟩)) :
    ones ≤ 30 := by
  simp only [subnetContains, maskApply, beq_iff_eq] at hc
  simp only [subnetNetwork, subnetBroadcast, maskApply, not_or] at hn
  obtain ⟨hn1, hn2⟩ := hn
  by_contra hgt
  have h01 : 32 - ones = 0 ∨ 32 - ones = 1 := by omega
  rcases h01 with h0 | h0
  · rw [show hostSize ones = 1 by simp [hostSize, h0]] at hc hn1 hn2
    omega
  · rw [show hostSize ones = 2 by simp [hostSize, h0]] at hc hn1 hn2
    omega

/-- Input for the C7 counterexample: a well-formed configuration whose
explicit `mtu` is the negative integer `-5`. -/
def c7Raw : RawConfig :=
  { cniVersion := "1.1.0", name := "atomic-net", typ := "atomicni",
    bridge := "atomic0", subnet := RawCIDR.v4 169213952 24,
    gateway := RawIP.v4 169213953, mtu := -5, dataDir := "",
    rangeStart := RawIP.absent, rangeEnd := RawIP.absent }

/-- The configuration `Parse` accepts for `c7Raw`. -/
def c7Cfg : NetworkConfig :=
  { cniVersion := "1.1.0", name := "atomic-net", typ := "atomicni",
    bridge := "atomic0", subnet := ⟨169213952, 24⟩, gateway := 169213953,
    mtu := -5, dataDir := "/var/lib/atomicni",
    rangeStart := 169213953, rangeEnd := 169214206 }

/-- Counterexample to claim C7 as stated: `Parse` never validates the MTU,
so an accepted configuration can carry the non-positive MTU `-5` (the code
only substitutes 1500 for the value zero). -/
theorem c7_counterexample :
    Parse c7Raw = .ok c7Cfg ∧ c7Cfg.mtu = -5 ∧ ¬ (0 < c7Cfg.mtu) :=
  ⟨rfl, rfl, by decide⟩

/-- Claim C7 (amended: the accepted MTU is the raw value with 1500
substituted only for zero/absent, not necessarily positive): every accepted
input yields the defaulted data directory `/var/lib/atomicni` when absent,
the default range `[network+1, broadcast-1]` when both endpoints are
absent, and an IPv4 subnet with at least two host addresses (so parsing
fails for every subnet with fewer than two host addresses). -/
theorem c7_parse_defaults_amended (r : RawConfig) (cfg : NetworkConfig)
    (h : Parse r = .ok cfg) :
    cfg.mtu = (if r.mtu = 0 then 1500 else r.mtu) ∧
    cfg.dataDir = (if r.dataDir = "" then "/var/lib/atomicni" else r.dataDir) ∧
    (r.rangeStart = RawIP.absent → r.rangeEnd = RawIP.absent →
      cfg.rangeStart = u32add (subnetNetwork cfg.subnet) 1 ∧
      cfg.rangeEnd = u32sub (subnetBroadcast cfg.subnet) 1) ∧
    (∃ a ones, r.subnet = RawCIDR.v4 a ones ∧ ones ≤ 30) := by
  obtain ⟨cv, nm, tp, br, sub, gw, mtuv, dd, rs0, re0⟩ := r
  unfold Parse at h
  dsimp only at h ⊢
  by_cases h1 : br = ""
  · rw [if_pos h1] at h; exact Except.noConfusion h
  rw [if_neg h1] at h
  by_cases h2 : nm = ""
  · rw [if_pos h2] at h; exact Except.noConfusion h
  rw [if_neg h2] at h
  by_cases h3 : sub = RawCIDR.absent
  · rw [if_pos h3] at h; exact Except.noConfusion h
  rw [if_neg h3] at h
  by_cases h4 : gw = RawIP.absent
  · rw [if_pos h4] at h; exact Except.noConfusion h
  rw [if_neg h4] at h
  cases gw with
  | absent => exact absurd rfl h4
  | invalid => simp [parseIPv4] at h
  | v6 => simp [parseIPv4] at h
  | v4 g =>
    simp only [parseIPv4] at h
    cases sub with
    | absent => exact absurd rfl h3
    | invalid => simp at h
    | v6 => simp at h
    | v4 a ones =>
      dsimp only at h
      by_cases hcont : ¬ subnetContains ⟨a, ones⟩ g = true
      · rw [if_pos hcont] at h
        exact Except.noConfusion h
      rw [if_neg hcont] at h
      by_cases hgnb : g = subnetNetwork ⟨a, ones⟩ ∨ g = subnetBroadcast ⟨a, ones⟩
      · rw [if_pos hgnb] at h
        exact Except.noConfusion h
      rw [if_neg hgnb] at h
      have hones : ones ≤ 30 :=
        ones_le_30_of_gateway a ones g (not_not.mp hcont) hgnb
      cases rs0 <;> cases re0
      · simp only [rangeIPOpt, RawIP.isAbsent, bne_self_eq_false,
          Bool.false_eq_true, if_false] at h
        cases hdr : defaultRange ⟨a, ones⟩ with
        | error e => rw [hdr] at h; exact Except.noConfusion h
        | ok pr =>
          obtain ⟨rs, re⟩ := pr
          rw [hdr] at h
          dsimp only at h
          have hcfg := finishRange_ok _ _ _ _ _ _ _ _ h
          subst hcfg
          unfold defaultRange at hdr
          dsimp only at hdr
          split_ifs at hdr
          have hpr := Except.ok.inj hdr
          refine ⟨rfl, rfl, fun _ _ => ?_, ⟨a, ones, rfl, hones⟩⟩
          dsimp only
          exact ⟨(congrArg Prod.fst hpr).symm, (congrArg Prod.snd hpr).symm⟩
      · simp [rangeIPOpt, parseIPv4] at h
      · simp [rangeIPOpt, parseIPv4] at h
      · simp [rangeIPOpt, parseIPv4, RawIP.isAbsent] at h
      · simp [rangeIPOpt, parseIPv4] at h
      · simp [rangeIPOpt, parseIPv4] at h
      · simp [rangeIPOpt, parseIPv4] at h
      · simp [rangeIPOpt, parseIPv4] at h
      · simp [rangeIPOpt, parseIPv4] at h
      · simp [rangeIPOpt, parseIPv4] at h
      · simp [rangeIPOpt, parseIPv4] at h
      · simp [rangeIPOpt, parseIPv4] at h
      · simp [rangeIPOpt, parseIPv4, RawIP.isAbsent] at h
      · simp [rangeIPOpt, parseIPv4] at h
      · simp [rangeIPOpt, parseIPv4] at h
      · simp only [rangeIPOpt, parseIPv4, RawIP.isAbsent, bne_self_eq_false,
          Bool.false_eq_true, if_false] at h
        have hcfg := finishRange_ok _ _ _ _ _ _ _ _ h
        subst hcfg
        exact ⟨rfl, rfl, fun hx => RawIP.noConfusion hx, ⟨a, ones, rfl, hones⟩⟩

/-- Minimal valid input for the C7 witness (absent MTU, data directory and
range). -/
def c7WitnessRaw : RawConfig :=
  { cniVersion := "1.1.0", name := "atomic-net", typ := "atomicni",
    bridge := "atomic0", subnet := RawCIDR.v4 169213952 24,
    gateway := RawIP.v4 169213953, mtu := 0, dataDir := "",
    rangeStart := RawIP.absent, rangeEnd := RawIP.absent }

/-- The configuration `Parse` produces for `c7WitnessRaw`. -/
def c7WitnessCfg : NetworkConfig :=
  { cniVersion := "1.1.0", name := "atomic-net", typ := "atomicni",
    bridge := "atomic0", subnet := ⟨169213952, 24⟩, gateway := 169213953,
    mtu := 1500, dataDir := "/var/lib/atomicni",
    rangeStart := 169213953, rangeEnd := 169214206 }

/-- Witness for C7 (amended) at a concrete minimal configuration. -/
theorem c7_witness :
    c7WitnessCfg.mtu = (if c7WitnessRaw.mtu = 0 then 1500 else c7WitnessRaw.mtu) ∧
    c7WitnessCfg.dataDir =
      (if c7WitnessRaw.dataDir = "" then "/var/lib/atomicni"
       else c7WitnessRaw.dataDir) ∧
    (c7WitnessRaw.rangeStart = RawIP.absent → c7WitnessRaw.rangeEnd = RawIP.absent →
      c7WitnessCfg.rangeStart = u32add (subnetNetwork c7WitnessCfg.subnet) 1 ∧
      c7WitnessCfg.rangeEnd = u32sub (subnetBroadcast c7WitnessCfg.subnet) 1) ∧
    (∃ a ones, c7WitnessRaw.subnet = RawCIDR.v4 a ones ∧ ones ≤ 30) :=
  c7_parse_defaults_amended c7WitnessRaw c7WitnessCfg rfl

/-- Input for the C6 counterexample: IPv6 subnet, IPv6 gateway, and only
one range endpoint given, so at least two of the §3 rules are violated. -/
def c6Raw : RawConfig :=
  { cniVersion := "1.1.0", name := "atomic-net", typ := "atomicni",
    bridge := "atomic0", subnet := RawCIDR.v6, gateway := RawIP.v6,
    mtu := 0, dataDir := "", rangeStart := RawIP.v4 169213962,
    rangeEnd := RawIP.absent }

/-- Counterexample to claim C6 as stated: `c6Raw` violates more than one
of the §3 rules and the first failing rule in the §3 order is `subnet is
IPv4`, but `Parse` reports the gateway's IPv4-parse error instead — the
code checks the gateway's IPv4-parsability (line 65) before the subnet
rule (line 75). -/
theorem c6_counterexample :
    2 ≤ ((specRules3 c6Raw).filter (fun p => p.1)).length ∧
    ((specRules3 c6Raw).find? (fun p => p.1)).map (fun p => p.2) =
      some "subnet: only IPv4 is supported" ∧
    Parse c6Raw = .error "gateway: only IPv4 is supported" ∧
    "gateway: only IPv4 is supported" ≠ "subnet: only IPv4 is supported" :=
  ⟨by decide, by decide, rfl, by decide⟩

/-- Every `defaultRange` failure carries the same message. -/
theorem defaultRange_error_text (s : IPNet) (d : String)
    (h : defaultRange s = .error d) :
    d = "subnet does not provide usable host addresses" := by
  unfold defaultRange at h
  dsimp only at h
  split_ifs at h <;> exact (Except.error.inj h).symm

/-- Tail of the rule walk shared by the given-range and defaulted-range
paths: if the first failing rule among the four range rules has message
`e`, then `finishRange` reports `e`. -/
theorem c6_tail (r : RawConfig) (s : IPNet) (g : Nat) (m : Int) (d : String)
    (rs re : Nat) (e : String)
    (h : (([((!(subnetContains s rs) || !(subnetContains s re)),
             "ipam range must be inside subnet"),
            (decide (re < rs), "ipam rangeStart must be <= rangeEnd"),
            (decide (rs = subnetNetwork s ∨ rs = subnetBroadcast s),
             "ipam rangeStart cannot be network or broadcast"),
            (decide (re = subnetNetwork s ∨ re = subnetBroadcast s),
             "ipam rangeEnd cannot be network or broadcast")].find?
          (fun p => p.1)).map (fun p => p.2)) = some e) :
    finishRange r s g m d rs re = .error e := by
  unfold finishRange
  cases hb : (!(subnetContains s rs) || !(subnetContains s re))
  · rw [hb] at h
    simp only [List.find?] at h
    rw [if_neg Bool.false_ne_true]
    by_cases h15 : re < rs
    · rw [decide_eq_true h15] at h
      simp only [List.find?] at h
      rw [if_pos h15]
      exact congrArg Except.error (Option.some.inj h)
    rw [decide_eq_false h15] at h
    rw [if_neg h15]
    by_cases h16 : rs = subnetNetwork s ∨ rs = subnetBroadcast s
    · rw [decide_eq_true h16] at h
      simp only [List.find?] at h
      rw [if_pos h16]
      exact congrArg Except.error (Option.some.inj h)
    rw [decide_eq_false h16] at h
    rw [if_neg h16]
    by_cases h17 : re = subnetNetwork s ∨ re = subnetBroadcast s
    · rw [decide_eq_true h17] at h
      simp only [List.find?] at h
      rw [if_pos h17]
      exact congrArg Except.error (Option.some.inj h)
    rw [decide_eq_false h17] at h
    simp only [List.find?] at h
    exact Option.noConfusion h
  · rw [hb] at h
    simp only [List.find?] at h
    rw [if_pos rfl]
    exact congrArg Except.error (Option.some.inj h)

/-- Claim C6 (amended to the implemented rule order): whenever any
validation rule fails — in particular when more than one fails — `Parse`
reports the message of the first failing rule in the order the code
implements: required fields; gateway parses as IPv4; subnet is an IPv4
CIDR; gateway inside the subnet; gateway neither network nor broadcast;
rangeStart parses as IPv4; rangeEnd parses as IPv4; endpoints set
together; default-range materialization; range inside the subnet;
rangeStart ≤ rangeEnd; neither endpoint network or broadcast. -/
theorem c6_first_rule_error (r : RawConfig) (e : String)
    (h : firstRuleError r = some e) : Parse r = .error e := by
  obtain ⟨cv, nm, tp, br, sub, gw, mtuv, dd, rs0, re0⟩ := r
  unfold firstRuleError implRules at h
  unfold Parse
  dsimp only at h ⊢
  by_cases h1 : br = ""
  · rw [decide_eq_true h1] at h
    simp only [List.find?] at h
    rw [if_pos h1]
    exact congrArg Except.error (Option.some.inj h)
  rw [decide_eq_false h1] at h
  rw [if_neg h1]
  by_cases h2 : nm = ""
  · rw [decide_eq_true h2] at h
    simp only [List.find?] at h
    rw [if_pos h2]
    exact congrArg Except.error (Option.some.inj h)
  rw [decide_eq_false h2] at h
  rw [if_neg h2]
  by_cases h3 : sub = RawCIDR.absent
  · rw [decide_eq_true h3] at h
    simp only [List.find?] at h
    rw [if_pos h3]
    exact congrArg Except.error (Option.some.inj h)
  rw [decide_eq_false h3] at h
  rw [if_neg h3]
  by_cases h4 : gw = RawIP.absent
  · rw [decide_eq_true h4] at h
    simp only [List.find?] at h
    rw [if_pos h4]
    exact congrArg Except.error (Option.some.inj h)
  rw [decide_eq_false h4] at h
  rw [if_neg h4]
  cases gw with
  | absent => exact absurd rfl h4
  | invalid =>
    rw [show (exceptErr (parseIPv4 RawIP.invalid)).isSome = true from rfl] at h
    simp only [List.find?] at h
    dsimp only [parseIPv4]
    exact congrArg Except.error (Option.some.inj h)
  | v6 =>
    rw [show (exceptErr (parseIPv4 RawIP.v6)).isSome = true from rfl] at h
    simp only [List.find?] at h
    dsimp only [parseIPv4]
    exact congrArg Except.error (Option.some.inj h)
  | v4 g =>
    rw [show (exceptErr (parseIPv4 (RawIP.v4 g))).isSome = false from rfl] at h
    simp only [List.find?] at h
    dsimp only [parseIPv4]
    cases sub with
    | absent => exact absurd rfl h3
    | invalid =>
      rw [show decide (RawCIDR.invalid = RawCIDR.invalid) = true from rfl] at h
      simp only [List.find?] at h
      exact congrArg Except.error (Option.some.inj h)
    | v6 =>
      rw [show decide (RawCIDR.v6 = RawCIDR.invalid) = false from rfl,
          show decide (RawCIDR.v6 = RawCIDR.v6) = true from rfl] at h
      simp only [List.find?] at h
      exact congrArg Except.error (Option.some.inj h)
    | v4 a ones =>
      rw [show decide (RawCIDR.v4 a ones = RawCIDR.invalid) = false from rfl,
          show decide (RawCIDR.v4 a ones = RawCIDR.v6) = false from rfl] at h
      simp only [List.find?, gwOutside, gwNetBcast, rawSubnetV4] at h
      dsimp only at h ⊢
      cases hc : subnetContains ⟨a, ones⟩ g with
      | false =>
        rw [hc, show (!false) = true from rfl] at h
        simp only [List.find?] at h
        rw [if_pos Bool.false_ne_true]
        exact congrArg Except.error (Option.some.inj h)
      | true =>
        rw [hc, show (!true) = false from rfl] at h
        simp only [List.find?] at h
        rw [if_neg (not_not_intro rfl)]
        by_cases h9 : g = subnetNetwork ⟨a, ones⟩ ∨ g = subnetBroadcast ⟨a, ones⟩
        · rw [decide_eq_true h9] at h
          simp only [List.find?] at h
          rw [if_pos h9]
          exact congrArg Except.error (Option.some.inj h)
        rw [decide_eq_false h9] at h
        rw [if_neg h9]
        cases rs0 with
        | invalid =>
          rw [show (exceptErr (rangeIPOpt "ipam.rangeStart" RawIP.invalid)).isSome = true
              from rfl] at h
          simp only [List.find?] at h
          dsimp only [rangeIPOpt, parseIPv4]
          exact congrArg Except.error (Option.some.inj h)
        | v6 =>
          rw [show (exceptErr (rangeIPOpt "ipam.rangeStart" RawIP.v6)).isSome = true
              from rfl] at h
          simp only [List.find?] at h
          dsimp only [rangeIPOpt, parseIPv4]
          exact congrArg Except.error (Option.some.inj h)
        | absent =>
          rw [show (exceptErr (rangeIPOpt "ipam.rangeStart" RawIP.absent)).isSome = false
              from rfl] at h
          simp only [List.find?] at h
          dsimp only [rangeIPOpt]
          cases re0 with
          | invalid =>
            rw [show (exceptErr (rangeIPOpt "ipam.rangeEnd" RawIP.invalid)).isSome = true
                from rfl] at h
            simp only [List.find?] at h
            dsimp only [rangeIPOpt, parseIPv4]
            exact congrArg Except.error (Option.some.inj h)
          | v6 =>
            rw [show (exceptErr (rangeIPOpt "ipam.rangeEnd" RawIP.v6)).isSome = true
                from rfl] at h
            simp only [List.find?] at h
            dsimp only [rangeIPOpt, parseIPv4]
            exact congrArg Except.error (Option.some.inj h)
          | v4 q =>
            rw [show (exceptErr (rangeIPOpt "ipam.rangeEnd" (RawIP.v4 q))).isSome = false
                from rfl] at h
            simp only [List.find?] at h
            rw [show (RawIP.absent.isAbsent != (RawIP.v4 q).isAbsent) = true from rfl] at h
            simp only [List.find?] at h
            dsimp only [rangeIPOpt, parseIPv4]
            rw [ite_self]
            exact congrArg Except.error (Option.some.inj h)
          | absent =>
            rw [show (exceptErr (rangeIPOpt "ipam.rangeEnd" RawIP.absent)).isSome = false
                from rfl] at h
            simp only [List.find?] at h
            rw [show (RawIP.absent.isAbsent != RawIP.absent.isAbsent) = false from rfl] at h
            simp only [List.find?] at h
            dsimp only [rangeIPOpt]
            rw [show (RawIP.absent.isAbsent != RawIP.absent.isAbsent) = false from rfl,
              if_neg Bool.false_ne_true]
            simp only [defaultRangeFails, rangeOutside, rangeOrderBad,
              rangeStartNetBcast, rangeEndNetBcast, effRange, rawSubnetV4,
              RawIP.isAbsent, Bool.true_and] at h
            cases hd : defaultRange ⟨a, ones⟩ with
            | error derr =>
              try rw [hd] at h
              rw [show (exceptErr (Except.error derr : Except String (Nat × Nat))).isSome = true
                  from rfl] at h
              simp only [List.find?] at h
              dsimp only
              rw [defaultRange_error_text ⟨a, ones⟩ derr hd]
              exact congrArg Except.error (Option.some.inj h)
            | ok pr =>
              obtain ⟨rs, re⟩ := pr
              try rw [hd] at h
              rw [show (exceptErr (Except.ok (rs, re) : Except String (Nat × Nat))).isSome = false
                  from rfl] at h
              simp only [List.find?, exceptOk] at h
              dsimp only
              exact c6_tail _ _ g _ _ rs re e h
        | v4 p =>
          rw [show (exceptErr (rangeIPOpt "ipam.rangeStart" (RawIP.v4 p))).isSome = false
              from rfl] at h
          simp only [List.find?] at h
          dsimp only [rangeIPOpt, parseIPv4]
          cases re0 with
          | invalid =>
            rw [show (exceptErr (rangeIPOpt "ipam.rangeEnd" RawIP.invalid)).isSome = true
                from rfl] at h
            simp only [List.find?] at h
            dsimp only [rangeIPOpt, parseIPv4]
            exact congrArg Except.error (Option.some.inj h)
          | v6 =>
            rw [show (exceptErr (rangeIPOpt "ipam.rangeEnd" RawIP.v6)).isSome = true
                from rfl] at h
            simp only [List.find?] at h
            dsimp only [rangeIPOpt, parseIPv4]
            exact congrArg Except.error (Option.some.inj h)
          | absent =>
            rw [show (exceptErr (rangeIPOpt "ipam.rangeEnd" RawIP.absent)).isSome = false
                from rfl] at h
            simp only [List.find?] at h
            rw [show ((RawIP.v4 p).isAbsent != RawIP.absent.isAbsent) = true from rfl] at h
            simp only [List.find?] at h
            dsimp only [rangeIPOpt]
            rw [ite_self]
            exact congrArg Except.error (Option.some.inj h)
          | v4 q =>
            rw [show (exceptErr (rangeIPOpt "ipam.rangeEnd" (RawIP.v4 q))).isSome = false
                from rfl] at h
            simp only [List.find?] at h
            rw [show ((RawIP.v4 p).isAbsent != (RawIP.v4 q).isAbsent) = false from rfl] at h
            simp only [List.find?] at h
            dsimp only [rangeIPOpt, parseIPv4]
            rw [show ((RawIP.v4 p).isAbsent != (RawIP.v4 q).isAbsent) = false from rfl,
              if_neg Bool.false_ne_true]
            simp only [defaultRangeFails, rangeOutside, rangeOrderBad,
              rangeStartNetBcast, rangeEndNetBcast, effRange, rawSubnetV4,
              RawIP.isAbsent, Bool.false_and] at h
            exact c6_tail _ _ g _ _ p q e h

/-- Witness for C6 (amended) at the counterexample input, whose first
failing implemented rule is the gateway IPv4-parse rule. -/
theorem c6_witness :
    Parse c6Raw = .error "gateway: only IPv4 is supported" :=
  c6_first_rule_error c6Raw "gateway: only IPv4 is supported" rfl

end Atomicni
